import Mathlib

/-!
Verification of the Strava metrics calculator (`StravaMetrics` class).

Shallow embedding conventions:
* JS numbers are modelled as `ℚ` wherever the source only performs field
  arithmetic and comparisons, and as `ℝ` in the formulas that apply
  `Math.exp` (the TRIMP branch of `calculateTSS`, the CTL/ATL recursions
  and the Daniels VDOT estimate), where `Math.exp` is modelled by
  `Real.exp`.
* `Math.round x` is `⌊x + 1/2⌋` (JS rounds half-up, also for negatives).
* Optional record fields are `Option` values; JS truthiness of a numeric
  field (`undefined` and `0` are falsy) is the predicate `truthy`.
* `start_date_local` is modelled as a calendar-day index (`ℤ`): both the
  `toDateString()` grouping and the `split('T')[0]` keying used by the
  source collapse an ISO local date-time string to its calendar day, and
  "today" (`new Date()`) is passed as an explicit day parameter.
* A JS expression that throws a `TypeError` on missing data (e.g.
  `a.name.toLowerCase()` when `name` is `undefined`) is modelled by an
  `Option`-returning operation producing `none`; `some r` means the JS
  call returns normally with result `r`.  A JS `null` *result value* is
  an inner `Option`.
-/

/-- JS `Math.round` on a rational: round half towards positive infinity. -/
def jroundQ (x : ℚ) : ℤ := ⌊x + 1/2⌋

/-- JS `Math.round` on a real: round half towards positive infinity. -/
noncomputable def jroundR (x : ℝ) : ℤ := ⌊x + 1/2⌋

/-- `Math.round(x * 10) / 10`: round to one decimal place. -/
noncomputable def round10R (x : ℝ) : ℝ := (jroundR (x * 10) : ℝ) / 10

/-- JS truthiness of an optional numeric field: present and nonzero
(`undefined` and `0` are both falsy). -/
def truthy (o : Option ℚ) : Bool := o.getD 0 != 0

/-- `String.prototype.padStart(2, '0')`. -/
def padTwo (n : ℤ) : String :=
  let s := toString n
  if s.length < 2 then "0" ++ s else s

/-- Case-insensitive-ready substring test on character lists:
`needleIn needle hay` is true iff `needle` occurs contiguously in `hay`
(JS `String.prototype.includes`). -/
def needleIn (needle : List Char) : List Char → Bool
  | [] => needle.isEmpty
  | c :: rest => matchesAt needle (c :: rest) || needleIn needle rest
where
  /-- `needle` matches at the head of `hay`. -/
  matchesAt : List Char → List Char → Bool
  | [], _ => true
  | _ :: _, [] => false
  | a :: as, b :: bs => a == b && matchesAt as bs

/-- `hay.includes(needle)` on strings. -/
def strIncludes (needle hay : String) : Bool := needleIn needle.data hay.data

/-- `String.prototype.toLowerCase` (ASCII, which covers the matched keywords). -/
def strLower (s : String) : String := String.mk (s.data.map Char.toLower)

/-- Stable insertion into a list sorted by `le` (used to model the stable
`Array.prototype.sort` of the source's comparator-based sorts). -/
def insertBy (le : α → α → Bool) (x : α) : List α → List α
  | [] => [x]
  | y :: ys => if le x y then x :: y :: ys else y :: insertBy le x ys

/-- Stable sort by a boolean comparator (`le a b` = "a may come before b"). -/
def sortBy (le : α → α → Bool) : List α → List α
  | [] => []
  | x :: xs => insertBy le x (sortBy le xs)

/-- Pointwise predicate over a list (used to state invariants without a
membership hypothesis). -/
def ListAll (P : α → Prop) : List α → Prop
  | [] => True
  | x :: xs => P x ∧ ListAll P xs

/-- A Strava activity summary record, restricted to the fields the
metrics calculator consumes.  `type` is carried (the dashboard's data has
it) but — as verified below — never read by the calculator. -/
structure Activity where
  type : Option String
  start_date_local : Option ℤ
  moving_time : ℚ
  distance : Option ℚ
  average_heartrate : Option ℚ
  has_heartrate : Bool
  average_watts : Option ℚ
  weighted_average_watts : Option ℚ
  name : Option String
deriving Repr, DecidableEq

/-- The athlete profile derived once in the `StravaMetrics` constructor. -/
structure Profile where
  maxHR : ℚ
  thresholdHR : ℤ
  restingHR : ℚ
  ftp : ℚ
deriving Repr, DecidableEq

/-- `b.weighted_average_watts || b.average_watts`: the power ranking key
used by `estimateFTP` and `analyzePowerCurve`. -/
def powerKey (a : Activity) : ℚ :=
  if truthy a.weighted_average_watts then a.weighted_average_watts.getD 0
  else a.average_watts.getD 0

/-- The `estimateFTP` qualifying filter: power present (truthy) and at
least 20 minutes of moving time. -/
def qualifying20 (a : Activity) : Bool :=
  truthy a.average_watts && decide (a.moving_time ≥ 1200)

/-- The `estimateFTP` best-effort window: moving time in [1200, 1800] s. -/
def inRange2030 (a : Activity) : Bool :=
  decide (a.moving_time ≥ 1200) && decide (a.moving_time ≤ 1800)

/-- `estimateFTP`: best 20–30-minute effort at 95%, else 75% of the best
average watts among ≥20-minute power activities, else the 250 default.
The best effort is the head of the descending stable sort by `powerKey`. -/
def estimateFTP (activities : List Activity) : ℤ :=
  let activitiesWithPower := activities.filter qualifying20
  match activitiesWithPower with
  | [] => 250
  | a0 :: rest =>
    let best20Min := (sortBy (fun a b => decide (powerKey b ≤ powerKey a))
      ((a0 :: rest).filter inRange2030)).head?
    match best20Min with
    | some best => jroundQ (powerKey best * (95/100))
    | none =>
      let bestAvgWatts := (rest.map fun a => a.average_watts.getD 0).foldl
        max (a0.average_watts.getD 0)
      jroundQ (bestAvgWatts * (75/100))

/-- `calculateAge`: years since account creation plus the assumed 25. -/
def calculateAge (creationYear currentYear : ℤ) : ℤ :=
  25 + (currentYear - creationYear)

/-- The `StravaMetrics` constructor: derive the physiological baseline. -/
def mkProfile (creationYear currentYear : ℤ) (activities : List Activity) :
    Profile :=
  let age := calculateAge creationYear currentYear
  let maxHR : ℚ := 220 - age
  { maxHR := maxHR
    thresholdHR := jroundQ (maxHR * (9/10))
    restingHR := 60
    ftp := (estimateFTP activities : ℚ) }

/-- `calculateTSS`: power-based, else TRIMP heart-rate based, else
pace-based, else 0.  The TRIMP branch uses `Math.exp`. -/
noncomputable def calculateTSS (prof : Profile) (activity : Activity) : ℤ :=
  let durationHours : ℚ := activity.moving_time / 3600
  if truthy activity.average_watts && decide (prof.ftp ≠ 0) then
    let intensityFactor : ℚ := activity.average_watts.getD 0 / prof.ftp
    jroundQ (durationHours * intensityFactor * intensityFactor * 100)
  else if activity.has_heartrate && truthy activity.average_heartrate then
    let hrr : ℚ := (activity.average_heartrate.getD 0 - prof.restingHR) /
      (prof.maxHR - prof.restingHR)
    jroundR (((activity.moving_time / 60 * hrr * (64/100) : ℚ) : ℝ) *
      Real.exp (((192/100 * hrr : ℚ) : ℝ)))
  else if truthy activity.distance && decide (activity.moving_time ≠ 0) then
    let paceMinPerKm : ℚ := (activity.moving_time / 60) /
      (activity.distance.getD 0 / 1000)
    let intensity : ℚ :=
      if paceMinPerKm < 9/2 then 6/5 else if paceMinPerKm < 11/2 then 4/5
      else 1/2
    jroundQ (durationHours * 60 * intensity)
  else 0

/-- The per-day TSS sum shared by `calculateCTL` and `calculateATL`:
activities whose local calendar day equals `d` (an activity without
`start_date_local` parses to an invalid date and matches no day). -/
noncomputable def tssOnDay (prof : Profile) (activities : List Activity)
    (d : ℤ) : ℤ :=
  (activities.filter fun a => a.start_date_local == some d).foldl
    (fun sum a => sum + calculateTSS prof a) 0

/-- `calculateCTL`: 42-day exponentially weighted fitness update. -/
noncomputable def calculateCTL (prof : Profile) (activities : List Activity)
    (d : ℤ) (previousCTL : ℝ) : ℝ :=
  previousCTL + ((tssOnDay prof activities d : ℝ) - previousCTL) *
    (1 - Real.exp (-(1/42)))

/-- `calculateATL`: 7-day exponentially weighted fatigue update. -/
noncomputable def calculateATL (prof : Profile) (activities : List Activity)
    (d : ℤ) (previousATL : ℝ) : ℝ :=
  previousATL + ((tssOnDay prof activities d : ℝ) - previousATL) *
    (1 - Real.exp (-(1/7)))

/-- `calculateTSB`: form is fitness minus fatigue. -/
def calculateTSB (ctl atl : ℝ) : ℝ := ctl - atl

/-- One emitted training-load point: the three values rounded to one
decimal place. -/
structure TrainingLoadPoint where
  date : ℤ
  ctl : ℝ
  atl : ℝ
  tsb : ℝ

/-- The day loop of `generateTrainingLoadHistory`: `n` remaining days
starting at day `d`, carrying the unrounded `(ctl, atl)` state. -/
noncomputable def trainingLoadAux (prof : Profile) (sorted : List Activity) :
    ℕ → ℤ → ℝ → ℝ → List TrainingLoadPoint
  | 0, _, _, _ => []
  | n + 1, d, ctl, atl =>
    let ctl2 := calculateCTL prof sorted d ctl
    let atl2 := calculateATL prof sorted d atl
    let tsb := calculateTSB ctl2 atl2
    { date := d, ctl := round10R ctl2, atl := round10R atl2,
      tsb := round10R tsb } :: trainingLoadAux prof sorted n (d + 1) ctl2 atl2

/-- `generateTrainingLoadHistory`: one point per calendar day from
`today - daysBack` through `today`, seeded at `ctl = atl = 0`.  The
source first sorts the activities by date (which only feeds the per-day
filtered sums). -/
noncomputable def generateTrainingLoadHistory (prof : Profile)
    (activities : List Activity) (today : ℤ) (daysBack : ℕ) :
    List TrainingLoadPoint :=
  let sorted := sortBy
    (fun a b => decide (a.start_date_local.getD 0 ≤ b.start_date_local.getD 0))
    activities
  trainingLoadAux prof sorted (daysBack + 1) (today - daysBack) 0 0

/-- `estimateVO2max`: the Daniels VDOT approximation for runs over 3 km at
more than 75% of max heart rate; `null` otherwise.  (The source also
computes an intermediate simplified VO2 value that it never uses; that
dead expression is omitted.) -/
noncomputable def estimateVO2max (prof : Profile) (activity : Activity) :
    Option ℝ :=
  if !(activity.has_heartrate && truthy activity.average_heartrate) then none
  else if !(truthy activity.distance && decide (activity.moving_time ≠ 0))
    then none
  else if decide (activity.distance.getD 0 > 3000) &&
      decide (activity.average_heartrate.getD 0 / prof.maxHR > 3/4) then
    let timeMinutes : ℚ := activity.moving_time / 60
    let distanceKm : ℚ := activity.distance.getD 0 / 1000
    let velocity : ℚ := distanceKm * 1000 / timeMinutes
    let vdot : ℝ :=
      ((-(46/10) + (182258/1000000) * velocity +
        (104/1000000) * velocity * velocity : ℚ) : ℝ) /
      ((8/10) + (1894393/10000000) *
        Real.exp ((-(12778/1000000) * timeMinutes : ℚ)) +
       (2989558/10000000) * Real.exp ((-(1932605/10000000) * timeMinutes : ℚ)))
    some (round10R vdot)
  else none

/-- One emitted VO2max history sample. -/
structure VO2Sample where
  date : ℤ
  vo2max : ℝ
  distance : Option ℚ
  activityName : Option String

/-- The push loop of `generateVO2maxHistory` over the already filtered and
sorted quality runs.  A sample is pushed only when the estimate is truthy
and strictly between 30 and 90; pushing reads `start_date_local`, so a
qualifying dated-less activity makes the JS throw (`none` here). -/
noncomputable def vo2Loop (prof : Profile) :
    List Activity → Option (List VO2Sample)
  | [] => some []
  | activity :: rest =>
    match estimateVO2max prof activity with
    | none => vo2Loop prof rest
    | some v =>
      if v ≠ 0 ∧ 30 < v ∧ v < 90 then
        match activity.start_date_local with
        | none => none
        | some d =>
          (vo2Loop prof rest).map fun history =>
            { date := d, vo2max := v, distance := activity.distance,
              activityName := activity.name } :: history
      else vo2Loop prof rest

/-- The quality-run filter of `generateVO2maxHistory`: heart rate present,
distance at least 3 km, average heart rate above 75% of max. -/
def qualityRun (prof : Profile) (a : Activity) : Bool :=
  a.has_heartrate && truthy a.average_heartrate &&
  truthy a.distance && decide (a.distance.getD 0 ≥ 3000) &&
  decide (a.average_heartrate.getD 0 / prof.maxHR > 3/4)

/-- `generateVO2maxHistory`: estimates over the date-sorted quality runs. -/
noncomputable def generateVO2maxHistory (prof : Profile)
    (activities : List Activity) : Option (List VO2Sample) :=
  vo2Loop prof (sortBy
    (fun a b => decide (a.start_date_local.getD 0 ≤ b.start_date_local.getD 0))
    (activities.filter (qualityRun prof)))

/-- `predictTime`: VDOT-derived pace, formatted `H:MM:SS` (hours positive)
or `M:SS`.  JS `x % y` on the nonnegative operands used here is
`x - y * ⌊x / y⌋`. -/
noncomputable def predictTime (distanceKm vo2max : ℝ) : String :=
  let velocity : ℝ := vo2max * (2/10) * distanceKm /
    ((104/1000000) * distanceKm + 182258/1000000)
  let timeMinutes : ℝ := distanceKm * 1000 / velocity
  let hours : ℤ := ⌊timeMinutes / 60⌋
  let minutes : ℤ := ⌊timeMinutes - 60 * (⌊timeMinutes / 60⌋ : ℝ)⌋
  let seconds : ℤ := ⌊(timeMinutes - (⌊timeMinutes⌋ : ℝ)) * 60⌋
  if hours > 0 then
    toString hours ++ ":" ++ padTwo minutes ++ ":" ++ padTwo seconds
  else
    toString minutes ++ ":" ++ padTwo seconds

/-- The race-prediction result record. -/
structure RacePrediction where
  currentVO2max : ℝ
  fiveK : String
  tenK : String
  halfMarathon : String
  marathon : String

/-- `predictRaceTimes`: mean VO2max of the last 30 days of samples
(falling back to the most recent sample), fed into `predictTime` for the
four target distances.  Outer `none` = the VO2max history threw; inner
`none` = the JS `null` returned for an empty history. -/
noncomputable def predictRaceTimes (prof : Profile)
    (activities : List Activity) (today : ℤ) :
    Option (Option RacePrediction) :=
  (generateVO2maxHistory prof activities).map fun vo2History =>
    match vo2History with
    | [] => none
    | _ :: _ =>
      let recentVO2 := (vo2History.filter fun h =>
        decide (today - 30 ≤ h.date)).map fun h => h.vo2max
      let currentVO2max : ℝ :=
        match recentVO2 with
        | [] => ((vo2History.getLast?.map fun h => h.vo2max).getD 0)
        | r :: rs => (rs.foldl (· + ·) r) / (recentVO2.length : ℝ)
      some
        { currentVO2max := round10R currentVO2max
          fiveK := predictTime 5 currentVO2max
          tenK := predictTime 10 currentVO2max
          halfMarathon := predictTime (21097/1000) currentVO2max
          marathon := predictTime (42195/1000) currentVO2max }

/-- One point of the power-duration curve. -/
structure PowerCurvePoint where
  duration : ℚ
  power : ℚ
  date : ℤ
  activityName : Option String
deriving Repr, DecidableEq

/-- The critical-power model result (both values `Math.round`ed). -/
structure CriticalPower where
  cp : ℤ
  wPrime : ℤ
deriving Repr, DecidableEq

/-- `calculateCriticalPower`: the 2-parameter model over the first
~5-minute (250–350 s) and first ~20-minute (1000–1400 s) curve points,
`null` when the curve has fewer than 3 points or either anchor is
missing. -/
def calculateCriticalPower (curve : List PowerCurvePoint) :
    Option CriticalPower :=
  if curve.length < 3 then none
  else
    let fiveMin := curve.find? fun c =>
      decide (c.duration ≥ 250) && decide (c.duration ≤ 350)
    let twentyMin := curve.find? fun c =>
      decide (c.duration ≥ 1000) && decide (c.duration ≤ 1400)
    match fiveMin, twentyMin with
    | some f, some t =>
      let cp := (f.power * f.duration - t.power * t.duration) /
        (f.duration - t.duration)
      let wPrime := (f.power - cp) * f.duration
      some { cp := jroundQ cp, wPrime := jroundQ wPrime }
    | _, _ => none

/-- The `reduce` of `analyzePowerCurve`: the first candidate with maximal
`powerKey` (the JS ternary keeps the incumbent on ties). -/
def bestEffortOf (c : Activity) (cs : List Activity) : Activity :=
  cs.foldl (fun best current =>
    if powerKey current > powerKey best then current else best) c

/-- The bucket loop of `analyzePowerCurve`: for each target duration keep
the best candidate within 20% of the target; pushing a point reads the
winner's `start_date_local` (a date-less winner makes the JS throw). -/
def buildCurve (withPower : List Activity) :
    List ℚ → Option (List PowerCurvePoint)
  | [] => some []
  | duration :: rest =>
    match withPower.filter fun a =>
        decide (|a.moving_time - duration| < duration * (2/10)) with
    | [] => buildCurve withPower rest
    | c :: cs =>
      let bestEffort := bestEffortOf c cs
      match bestEffort.start_date_local with
      | none => none
      | some d =>
        (buildCurve withPower rest).map fun curve =>
          { duration := duration, power := powerKey bestEffort, date := d,
            activityName := bestEffort.name } :: curve

/-- The full power-curve analysis result. -/
structure PowerAnalysis where
  curve : List PowerCurvePoint
  criticalPower : Option CriticalPower
deriving Repr, DecidableEq

/-- `analyzePowerCurve`: the target duration buckets of the source. -/
def powerCurveDurations : List ℚ :=
  [5, 10, 30, 60, 120, 300, 600, 1200, 1800, 3600]

/-- `analyzePowerCurve`: `null` without any power activity, otherwise the
bucketed best efforts and the critical-power fit.  Outer `none` = the JS
threw (a winner without a date); inner `none` = the JS `null` result. -/
def analyzePowerCurve (activities : List Activity) :
    Option (Option PowerAnalysis) :=
  let activitiesWithPower := activities.filter fun a => truthy a.average_watts
  match activitiesWithPower with
  | [] => some none
  | _ :: _ =>
    (buildCurve activitiesWithPower powerCurveDurations).map fun curve =>
      some { curve := curve, criticalPower := calculateCriticalPower curve }

/-- `calculateWorkoutQuality`: base 5, bonuses for TSS density, heart-rate
effort and power effort, clamped to [0, 10].  (In Lean `tss / 0 = 0`, so a
zero `moving_time` earns no TSS-density bonus, where JS would compare
`Infinity`; no claim depends on that corner.) -/
def calculateWorkoutQuality (prof : Profile) (activity : Activity)
    (tss : ℤ) : ℤ :=
  let score : ℤ := 5
  let tssPerHour : ℚ := (tss : ℚ) / (activity.moving_time / 3600)
  let score := if tssPerHour > 80 then score + 2
    else if tssPerHour > 60 then score + 1 else score
  let score := if activity.has_heartrate then
      let hrPercent : ℚ := activity.average_heartrate.getD 0 / prof.maxHR
      if hrPercent > 85/100 then score + 2
      else if hrPercent > 75/100 then score + 1 else score
    else score
  let score := if truthy activity.average_watts && decide (prof.ftp ≠ 0) then
      let powerPercent : ℚ := activity.average_watts.getD 0 / prof.ftp
      if powerPercent > 9/10 then score + 1 else score
    else score
  min 10 (max 0 score)

/-- The interval-name classifier of `detectIntervals`: case-insensitive
substring match against the five keywords. -/
def isIntervalName (name : String) : Bool :=
  let lower := strLower name
  strIncludes "interval" lower || strIncludes "x " lower ||
  strIncludes "tempo" lower || strIncludes "fartlek" lower ||
  strIncludes "rep" lower

/-- One summary record emitted by `detectIntervals`.  The JS renders
`distance` and `avgPace` as strings; a missing distance yields the `NaN`
strings, modelled as `none`. -/
structure IntervalSummary where
  date : ℤ
  name : String
  distanceKm : Option ℚ
  avgPace : Option ℚ
  avgHR : Option ℤ
  avgPower : Option ℤ
  tss : ℤ
  quality : ℤ

/-- The per-workout summary of `detectIntervals`. -/
noncomputable def mkIntervalSummary (prof : Profile) (workout : Activity) :
    IntervalSummary :=
  let tss := calculateTSS prof workout
  { date := workout.start_date_local.getD 0
    name := workout.name.getD ""
    distanceKm := workout.distance.map fun dist => dist / 1000
    avgPace := workout.distance.bind fun dist =>
      if dist = 0 then none else some ((workout.moving_time / 60) / (dist / 1000))
    avgHR := if truthy workout.average_heartrate then
        some (jroundQ (workout.average_heartrate.getD 0)) else none
    avgPower := if truthy workout.average_watts then
        some (jroundQ (workout.average_watts.getD 0)) else none
    tss := tss
    quality := calculateWorkoutQuality prof workout tss }

/-- `detectIntervals`: name-pattern classification.  The filter reads
`a.name.toLowerCase()` on every activity and the map reads
`workout.start_date_local.split(...)` on every match, so a missing name
anywhere — or a missing date on a match — makes the JS throw (`none`).
The result is sorted by date descending. -/
noncomputable def detectIntervals (prof : Profile)
    (activities : List Activity) : Option (List IntervalSummary) :=
  if activities.all fun a => a.name.isSome then
    let intervalWorkouts := activities.filter fun a =>
      isIntervalName (a.name.getD "")
    if intervalWorkouts.all fun a => a.start_date_local.isSome then
      some (sortBy (fun s1 s2 => decide (s2.date ≤ s1.date))
        (intervalWorkouts.map (mkIntervalSummary prof)))
    else none
  else none

/-- The accumulation step of `getDailyTSS`: add `tss` to the entry of day
`d`, creating it at the end on first sight (JS object insertion order). -/
def addDaily (d : ℤ) (tss : ℤ) : List (ℤ × ℤ) → List (ℤ × ℤ)
  | [] => [(d, tss)]
  | (d2, t2) :: rest =>
    if d2 = d then (d2, t2 + tss) :: rest else (d2, t2) :: addDaily d tss rest

/-- The activity loop of `getDailyTSS`; reading `start_date_local` of an
activity without a date makes the JS throw (`none`). -/
noncomputable def dailyLoop (prof : Profile) :
    List Activity → List (ℤ × ℤ) → Option (List (ℤ × ℤ))
  | [], dailyData => some dailyData
  | activity :: rest, dailyData =>
    match activity.start_date_local with
    | none => none
    | some d => dailyLoop prof rest
        (addDaily d (calculateTSS prof activity) dailyData)

/-- `getDailyTSS`: per-day TSS sums keyed by local calendar date over the
whole activity set.  The `daysBack` parameter is declared by the source
but never used. -/
noncomputable def getDailyTSS (prof : Profile) (activities : List Activity)
    (daysBack : ℕ) : Option (List (ℤ × ℤ)) :=
  dailyLoop prof activities []

/-- A sample profile: the baseline a `StravaMetrics` instance derives when
`maxHR = 190` and no power data is available (FTP default 250). -/
def profA : Profile :=
  { maxHR := 190, thresholdHR := 171, restingHR := 60, ftp := 250 }

/-- An activity with `average_watts` present but equal to 0 and full
heart-rate data: the JS power guard `activity.average_watts && this.ftp`
is falsy on it, so the heart-rate branch wins. -/
def zeroWattAct : Activity :=
  { type := some "Run", start_date_local := some 0, moving_time := 3600,
    distance := none, average_heartrate := some 160, has_heartrate := true,
    average_watts := some 0, weighted_average_watts := none,
    name := some "Morning Run" }

/-- C1 (counterexample): on an activity with `average_watts` present but
zero and heart-rate data present, `calculateTSS` does not return the
power-based score (the power formula gives 0, the code returns the
TRIMP score, which is positive here): the claim's "average_watts present"
is too weak — JS truthiness also requires it to be nonzero. -/
theorem c1_counterexample :
    calculateTSS profA zeroWattAct ≠
      jroundQ ((zeroWattAct.moving_time / 3600) *
        (zeroWattAct.average_watts.getD 0 / profA.ftp) ^ 2 * 100) := by
  have hrhs : jroundQ ((zeroWattAct.moving_time / 3600) *
      (zeroWattAct.average_watts.getD 0 / profA.ftp) ^ 2 * 100) = 0 := by
    norm_num [jroundQ, zeroWattAct, profA]
  rw [hrhs]
  have hlhs : calculateTSS profA zeroWattAct =
      jroundR (((3600 / 60 * ((160 - 60) / (190 - 60)) * (64/100) : ℚ) : ℝ) *
        Real.exp (((192/100 * ((160 - 60) / (190 - 60)) : ℚ) : ℝ))) := by
    simp [calculateTSS, zeroWattAct, profA, truthy]
  rw [hlhs]
  have hq : ((3600 / 60 * ((160 - 60) / (190 - 60)) * (64/100) : ℚ) : ℝ) =
      384 / 13 := by norm_num
  have hexp : (1 : ℝ) ≤
      Real.exp (((192/100 * ((160 - 60) / (190 - 60)) : ℚ) : ℝ)) := by
    rw [Real.one_le_exp_iff]
    positivity
  have hge : (1 : ℤ) ≤ jroundR
      (((3600 / 60 * ((160 - 60) / (190 - 60)) * (64/100) : ℚ) : ℝ) *
        Real.exp (((192/100 * ((160 - 60) / (190 - 60)) : ℚ) : ℝ))) := by
    rw [jroundR, Int.le_floor]
    rw [hq]
    nlinarith [hexp]
  omega

/-- C1 (amended): for every activity whose `average_watts` is present and
nonzero, and every profile with nonzero FTP, `calculateTSS` returns the
power-based score `round(durationHours × (watts/FTP)² × 100)`, regardless
of any heart-rate or pace data the record also carries. -/
theorem c1_power_tss (prof : Profile) (a : Activity) (w : ℚ)
    (hw : a.average_watts = some w) (hw0 : w ≠ 0) (hftp : prof.ftp ≠ 0) :
    calculateTSS prof a =
      jroundQ ((a.moving_time / 3600) * (w / prof.ftp) ^ 2 * 100) := by
  have hcond : (truthy a.average_watts && decide (prof.ftp ≠ 0)) = true := by
    rw [hw]
    simp [truthy, hw0, hftp]
  unfold calculateTSS
  rw [if_pos hcond, hw]
  show jroundQ (a.moving_time / 3600 * ((some w).getD 0 / prof.ftp) *
    ((some w).getD 0 / prof.ftp) * 100) = _
  congr 1
  show a.moving_time / 3600 * (w / prof.ftp) * (w / prof.ftp) * 100 = _
  ring

/-- C1 (witness): an hour-long activity exactly at the 250 W FTP gets
TSS = 100. -/
theorem c1_power_tss_witness :
    calculateTSS profA
        { zeroWattAct with average_watts := some 250 } =
      jroundQ (({ zeroWattAct with average_watts := some 250 }.moving_time
        / 3600) * ((250 : ℚ) / profA.ftp) ^ 2 * 100) ∧
    jroundQ (({ zeroWattAct with average_watts := some 250 }.moving_time
        / 3600) * ((250 : ℚ) / profA.ftp) ^ 2 * 100) = 100 :=
  ⟨c1_power_tss profA { zeroWattAct with average_watts := some 250 } 250
      rfl (by norm_num) (by norm_num [profA]),
    by norm_num [jroundQ, zeroWattAct, profA]⟩

/-- One-decimal rounding never adds more than 0.05. -/
lemma round10R_le (x : ℝ) : round10R x ≤ x + 1/20 := by
  rw [round10R, jroundR]
  have h := Int.floor_le (x * 10 + 1/2)
  linarith

/-- One-decimal rounding never subtracts 0.05 or more. -/
lemma lt_round10R (x : ℝ) : x - 1/20 < round10R x := by
  rw [round10R, jroundR]
  have h := Int.sub_one_lt_floor (x * 10 + 1/2)
  linarith

/-- Evaluate `round10R` from explicit bounds on `x * 10 + 1/2`. -/
lemma round10R_eq (x : ℝ) (n : ℤ) (h1 : (n : ℝ) ≤ x * 10 + 1/2)
    (h2 : x * 10 + 1/2 < (n : ℝ) + 1) : round10R x = (n : ℝ) / 10 := by
  rw [round10R, jroundR]
  have hfl : ⌊x * 10 + 1/2⌋ = n := by
    rw [Int.floor_eq_iff]
    · exact ⟨h1, by push_cast; linarith⟩
  rw [hfl]

/-- `1 - x ≤ exp (-x)`. -/
lemma exp_neg_ge (x : ℝ) : 1 - x ≤ Real.exp (-x) := by
  have h := Real.add_one_le_exp (-x)
  linarith

/-- `exp (-x) ≤ 1 / (1 + x)` for positive `x`. -/
lemma exp_neg_le (x : ℝ) (hx : 0 < x) : Real.exp (-x) ≤ (1 + x)⁻¹ := by
  rw [Real.exp_neg]
  have h1 := Real.add_one_le_exp x
  exact inv_anti₀ (by linarith) (by linarith)

/-- Every point the day loop emits satisfies the 0.15 form-balance bound:
its three fields are one-decimal roundings of values `c`, `a`, `c - a`. -/
lemma trainingLoadAux_tsb_bound (prof : Profile) (sorted : List Activity) :
    ∀ (n : ℕ) (d : ℤ) (c a : ℝ),
      ListAll (fun pt => |pt.tsb - (pt.ctl - pt.atl)| < 3/20)
        (trainingLoadAux prof sorted n d c a) := by
  intro n
  induction n with
  | zero => intro d c a; trivial
  | succ n ih =>
    intro d c a
    refine ⟨?_, ih (d + 1) _ _⟩
    show |round10R (calculateTSB (calculateCTL prof sorted d c)
        (calculateATL prof sorted d a)) -
      (round10R (calculateCTL prof sorted d c) -
        round10R (calculateATL prof sorted d a))| < 3/20
    set c2 := calculateCTL prof sorted d c
    set a2 := calculateATL prof sorted d a
    rw [calculateTSB]
    have h1 := round10R_le (c2 - a2)
    have h2 := lt_round10R (c2 - a2)
    have h3 := round10R_le c2
    have h4 := lt_round10R c2
    have h5 := round10R_le a2
    have h6 := lt_round10R a2
    rw [abs_lt]
    constructor <;> linarith

/-- C2 (amended): in every training-load history, every point satisfies
`tsb = ctl − atl` within 0.15 (three one-decimal roundings of the exact
identity `tsb = ctl − atl`; the claimed 0.05 tolerance is refuted below). -/
theorem c2_tsb_tolerance (prof : Profile) (activities : List Activity)
    (today : ℤ) (daysBack : ℕ) :
    ListAll (fun pt => |pt.tsb - (pt.ctl - pt.atl)| < 3/20)
      (generateTrainingLoadHistory prof activities today daysBack) :=
  trainingLoadAux_tsb_bound prof _ (daysBack + 1) (today - daysBack) 0 0

/-- A 4-minute 500 m jog: pace-based TSS evaluates to exactly 2. -/
def paceAct : Activity :=
  { type := some "Run", start_date_local := some 0, moving_time := 240,
    distance := some 500, average_heartrate := none, has_heartrate := false,
    average_watts := none, weighted_average_watts := none,
    name := some "Short jog" }

/-- C2 (counterexample): with a single day of TSS 2, the emitted point is
`{ctl := 0, atl := 0.3, tsb := -0.2}` and `|tsb - (ctl - atl)| = 0.1`,
exceeding the claimed 0.05 tolerance: the three values are rounded
independently, so up to three rounding errors accumulate. -/
theorem c2_counterexample :
    generateTrainingLoadHistory profA [paceAct] 0 0 =
      [{ date := 0, ctl := 0, atl := 3/10, tsb := -(1/5) }] ∧
    ¬ (|(-(1/5) : ℝ) - ((0 : ℝ) - 3/10)| ≤ 1/20) := by
  have htss : tssOnDay profA [paceAct] 0 = 2 := by
    have hT : calculateTSS profA paceAct = 2 := by
      have h8 : ¬((240 : ℚ) / 60 / (500 / 1000) < 9/2) := by norm_num
      have h8b : ¬((240 : ℚ) / 60 / (500 / 1000) < 11/2) := by norm_num
      simp [calculateTSS, paceAct, profA, truthy, h8, h8b]
      norm_num [jroundQ]
    have hfil : ([paceAct].filter fun a => a.start_date_local == some 0) =
        [paceAct] := rfl
    rw [tssOnDay, hfil]
    show 0 + calculateTSS profA paceAct = 2
    rw [hT]
    norm_num
  have he42l : (41/42 : ℝ) ≤ Real.exp (-(1/42)) := by
    have := exp_neg_ge (1/42 : ℝ); linarith
  have he42u : Real.exp (-(1/42) : ℝ) ≤ 42/43 := by
    have h := exp_neg_le (1/42 : ℝ) (by norm_num)
    have : ((1 : ℝ) + 1/42)⁻¹ = 42/43 := by norm_num
    linarith
  have he7l : (6/7 : ℝ) ≤ Real.exp (-(1/7)) := by
    have := exp_neg_ge (1/7 : ℝ); linarith
  have he7u : Real.exp (-(1/7) : ℝ) ≤ 7/8 := by
    have h := exp_neg_le (1/7 : ℝ) (by norm_num)
    have : ((1 : ℝ) + 1/7)⁻¹ = 7/8 := by norm_num
    linarith
  have hctl : calculateCTL profA [paceAct] 0 0 =
      2 * (1 - Real.exp (-(1/42))) := by
    rw [calculateCTL, htss]; push_cast; ring
  have hatl : calculateATL profA [paceAct] 0 0 =
      2 * (1 - Real.exp (-(1/7))) := by
    rw [calculateATL, htss]; push_cast; ring
  constructor
  · have hstart : generateTrainingLoadHistory profA [paceAct] 0 0 =
        trainingLoadAux profA [paceAct] 1 0 0 0 := rfl
    have haux : trainingLoadAux profA [paceAct] 1 0 0 0 =
        [{ date := 0, ctl := round10R (calculateCTL profA [paceAct] 0 0),
           atl := round10R (calculateATL profA [paceAct] 0 0),
           tsb := round10R (calculateTSB (calculateCTL profA [paceAct] 0 0)
             (calculateATL profA [paceAct] 0 0)) }] := rfl
    have hc : round10R (calculateCTL profA [paceAct] 0 0) = 0 := by
      rw [hctl]
      have h := round10R_eq (2 * (1 - Real.exp (-(1/42)))) 0
        (by push_cast; nlinarith) (by push_cast; nlinarith)
      rw [h]; norm_num
    have ha : round10R (calculateATL profA [paceAct] 0 0) = 3/10 := by
      rw [hatl]
      have h := round10R_eq (2 * (1 - Real.exp (-(1/7)))) 3
        (by push_cast; nlinarith) (by push_cast; nlinarith)
      rw [h]; norm_num
    have ht : round10R (calculateTSB (calculateCTL profA [paceAct] 0 0)
        (calculateATL profA [paceAct] 0 0)) = -(1/5) := by
      rw [calculateTSB, hctl, hatl]
      have h := round10R_eq
        (2 * (1 - Real.exp (-(1/42))) - 2 * (1 - Real.exp (-(1/7)))) (-2)
        (by push_cast; nlinarith) (by push_cast; nlinarith)
      rw [h]; norm_num
    rw [hstart, haux, hc, ha, ht]
  · intro h
    rw [abs_le] at h
    have h2 := h.2
    norm_num at h2

/-- The day loop starting at day `d` for `n` days emits exactly the days
`d, d+1, …, d+n-1` in order. -/
lemma trainingLoadAux_dates (prof : Profile) (sorted : List Activity) :
    ∀ (n : ℕ) (d : ℤ) (c a : ℝ),
      (trainingLoadAux prof sorted n d c a).map (fun pt => pt.date) =
        (List.range n).map (fun (i : ℕ) => d + (i : ℤ)) := by
  intro n
  induction n with
  | zero => intro d c a; rfl
  | succ n ih =>
    intro d c a
    rw [List.range_succ_eq_map]
    show d :: (trainingLoadAux prof sorted n (d + 1) _ _).map
      (fun pt => pt.date) = _
    rw [ih (d + 1)]
    rw [List.map_cons, List.map_map]
    refine congrArg₂ _ (by norm_num) ?_
    apply List.map_congr_left
    intro i _
    show d + 1 + (i : ℤ) = d + ((i + 1 : ℕ) : ℤ)
    push_cast
    ring

/-- C3: for every activity list, profile, fixed "today" and `daysBack`,
the training-load history has exactly `daysBack + 1` points and its dates
are the consecutive calendar days `today - daysBack, …, today` in strictly
ascending order with no gaps or duplicates (the date list is literally the
range `[today - daysBack + i : i < daysBack + 1]`). -/
theorem c3_history_shape (prof : Profile) (activities : List Activity)
    (today : ℤ) (daysBack : ℕ) :
    (generateTrainingLoadHistory prof activities today daysBack).length =
      daysBack + 1 ∧
    (generateTrainingLoadHistory prof activities today daysBack).map
        (fun pt => pt.date) =
      (List.range (daysBack + 1)).map
        (fun (i : ℕ) => today - daysBack + (i : ℤ)) := by
  have hmap := trainingLoadAux_dates prof
    (sortBy (fun a b =>
      decide (a.start_date_local.getD 0 ≤ b.start_date_local.getD 0))
      activities) (daysBack + 1) (today - daysBack) 0 0
  constructor
  · have hlen : (generateTrainingLoadHistory prof activities today
        daysBack).length =
        ((generateTrainingLoadHistory prof activities today daysBack).map
          (fun pt => pt.date)).length := (List.length_map _ _).symm
    rw [hlen]
    show ((trainingLoadAux prof _ (daysBack + 1) (today - daysBack) 0 0).map
      (fun pt => pt.date)).length = _
    rw [hmap, List.length_map, List.length_range]
  · exact hmap

/-- `ListAll` is pointwise truth over members. -/
lemma ListAll_iff_forall (P : α → Prop) :
    ∀ l : List α, ListAll P l ↔ ∀ x ∈ l, P x := by
  intro l
  induction l with
  | nil => simp [ListAll]
  | cons a rest ih =>
    show P a ∧ ListAll P rest ↔ _
    rw [ih]
    simp

/-- Every sample the VO2max push loop emits lies strictly between 30 and
90, by the source's sanity guard. -/
lemma vo2Loop_range (prof : Profile) :
    ∀ l : List Activity,
      ListAll (fun s => 30 < s.vo2max ∧ s.vo2max < 90)
        ((vo2Loop prof l).getD []) := by
  intro l
  induction l with
  | nil => trivial
  | cons a rest ih =>
    rw [vo2Loop]
    cases hv : estimateVO2max prof a with
    | none => exact ih
    | some v =>
      show ListAll _ (((if v ≠ 0 ∧ 30 < v ∧ v < 90 then
        match a.start_date_local with
        | none => none
        | some d =>
          (vo2Loop prof rest).map fun history =>
            { date := d, vo2max := v, distance := a.distance,
              activityName := a.name } :: history
        else vo2Loop prof rest) : Option (List VO2Sample)).getD [])
      by_cases hc : v ≠ 0 ∧ 30 < v ∧ v < 90
      · rw [if_pos hc]
        cases hd : a.start_date_local with
        | none => trivial
        | some d =>
          cases hrest : vo2Loop prof rest with
          | none => trivial
          | some hs =>
            rw [hrest] at ih
            exact ⟨⟨hc.2.1, hc.2.2⟩, ih⟩
      · rw [if_neg hc]
        exact ih

/-- C4: every sample of every VO2max history satisfies `30 < vo2max < 90`;
an activity whose estimate is `null` or out of range contributes no entry
(the guard skips it entirely — nothing is pushed for it, so no zero or
placeholder sample can appear). -/
theorem c4_vo2_range (prof : Profile) (activities : List Activity) :
    ListAll (fun s => 30 < s.vo2max ∧ s.vo2max < 90)
      ((generateVO2maxHistory prof activities).getD []) :=
  vo2Loop_range prof _

/-- Insertion preserves membership. -/
lemma mem_insertBy (le : α → α → Bool) (x y : α) :
    ∀ l : List α, y ∈ insertBy le x l ↔ y = x ∨ y ∈ l := by
  intro l
  induction l with
  | nil => simp [insertBy]
  | cons a rest ih =>
    rw [insertBy]
    by_cases h : le x a
    · simp [h]
    · simp only [if_neg h, List.mem_cons, ih]
      tauto

/-- Sorting preserves membership. -/
lemma mem_sortBy (le : α → α → Bool) :
    ∀ l : List α, ∀ y, y ∈ sortBy le l ↔ y ∈ l := by
  intro l
  induction l with
  | nil => simp [sortBy]
  | cons a rest ih =>
    intro y
    rw [sortBy, mem_insertBy, ih]
    simp

/-- The `reduce` winner is one of the candidates. -/
lemma bestEffortOf_mem (c : Activity) :
    ∀ cs : List Activity, bestEffortOf c cs ∈ c :: cs := by
  have key : ∀ (cs : List Activity) (c : Activity),
      bestEffortOf c cs = c ∨ bestEffortOf c cs ∈ cs := by
    intro cs
    induction cs with
    | nil => intro c; exact Or.inl rfl
    | cons x rest ih =>
      intro c
      have hred : bestEffortOf c (x :: rest) =
          bestEffortOf (if powerKey x > powerKey c then x else c) rest := rfl
      rw [hred]
      by_cases h : powerKey x > powerKey c
      · rw [if_pos h]
        rcases ih x with h2 | h2
        · exact Or.inr (by rw [h2]; exact List.mem_cons_self x rest)
        · exact Or.inr (List.mem_cons_of_mem x h2)
      · rw [if_neg h]
        rcases ih c with h2 | h2
        · exact Or.inl h2
        · exact Or.inr (List.mem_cons_of_mem x h2)
  intro cs
  rcases key cs c with h | h
  · rw [h]; exact List.mem_cons_self c cs
  · exact List.mem_cons_of_mem c h

/-- The daily-TSS loop returns normally when every activity has a date. -/
lemma dailyLoop_isSome (prof : Profile) :
    ∀ (l : List Activity) (m : List (ℤ × ℤ)),
      (∀ a ∈ l, a.start_date_local.isSome) →
      (dailyLoop prof l m).isSome := by
  intro l
  induction l with
  | nil => intro m _; rfl
  | cons a rest ih =>
    intro m h
    have ha := h a (List.mem_cons_self a rest)
    rw [dailyLoop]
    cases hd : a.start_date_local with
    | none => rw [hd] at ha; simp at ha
    | some d => exact ih _ (fun x hx => h x (List.mem_cons_of_mem a hx))

/-- The VO2max push loop returns normally when every activity has a date. -/
lemma vo2Loop_isSome (prof : Profile) :
    ∀ l : List Activity, (∀ a ∈ l, a.start_date_local.isSome) →
      (vo2Loop prof l).isSome := by
  intro l
  induction l with
  | nil => intro _; rfl
  | cons a rest ih =>
    intro h
    have ha := h a (List.mem_cons_self a rest)
    have hrest := ih (fun x hx => h x (List.mem_cons_of_mem a hx))
    rw [vo2Loop]
    cases hv : estimateVO2max prof a with
    | none => exact hrest
    | some v =>
      show (Option.isSome (if v ≠ 0 ∧ 30 < v ∧ v < 90 then
        match a.start_date_local with
        | none => none
        | some d =>
          (vo2Loop prof rest).map fun history =>
            { date := d, vo2max := v, distance := a.distance,
              activityName := a.name } :: history
        else vo2Loop prof rest)) = true
      by_cases hc : v ≠ 0 ∧ 30 < v ∧ v < 90
      · rw [if_pos hc]
        cases hd : a.start_date_local with
        | none => rw [hd] at ha; simp at ha
        | some d =>
          cases hr : vo2Loop prof rest with
          | none => rw [hr] at hrest; simp at hrest
          | some hs => rfl
      · rw [if_neg hc]
        exact hrest

/-- The power-curve bucket loop returns normally when every power activity
has a date. -/
lemma buildCurve_isSome (wp : List Activity)
    (h : ∀ a ∈ wp, a.start_date_local.isSome) :
    ∀ durs : List ℚ, (buildCurve wp durs).isSome := by
  intro durs
  induction durs with
  | nil => rfl
  | cons duration rest ih =>
    rw [buildCurve]
    cases hc : wp.filter fun a =>
        decide (|a.moving_time - duration| < duration * (2/10)) with
    | nil => exact ih
    | cons c cs =>
      have hmem : bestEffortOf c cs ∈ wp := by
        have h1 := bestEffortOf_mem c cs
        rw [← hc] at h1
        exact (List.mem_filter.mp h1).1
      have hd := h _ hmem
      show ((match (bestEffortOf c cs).start_date_local with
        | none => (none : Option (List PowerCurvePoint))
        | some d =>
          (buildCurve wp rest).map fun curve =>
            { duration := duration, power := powerKey (bestEffortOf c cs),
              date := d, activityName := (bestEffortOf c cs).name } ::
              curve).isSome) = true
      cases hdd : (bestEffortOf c cs).start_date_local with
      | none => rw [hdd] at hd; simp at hd
      | some d =>
        cases hb : buildCurve wp rest with
        | none => rw [hb] at ih; simp at ih
        | some curve => rfl

/-- An activity with every optional field absent except its date: the JS
`detectIntervals` filter evaluates `a.name.toLowerCase()` on it and
throws a `TypeError`. -/
def namelessAct : Activity :=
  { type := none, start_date_local := some 0, moving_time := 600,
    distance := none, average_heartrate := none, has_heartrate := false,
    average_watts := none, weighted_average_watts := none, name := none }

/-- C5 (counterexample): `detectIntervals` faults (modelled as `none`) on
a well-typed activity list in which one record merely lacks the optional
`name` field, because the filter dereferences `a.name.toLowerCase()`
unconditionally — so not every operation is total on data-sparse input. -/
theorem c5_counterexample : detectIntervals profA [namelessAct] = none := by
  simp [detectIntervals, namelessAct]

/-- C5 (amended): every operation returns a value — a default, `null` or
an empty collection — rather than a fault, for any well-typed input whose
records may lack heart rate, power or distance, *provided* every record
carries `name` and `start_date_local`.  (Missing names fault
`detectIntervals`; missing dates fault `getDailyTSS`,
`generateVO2maxHistory`, `analyzePowerCurve` and `predictRaceTimes`, as
the counterexample shows.)  `calculateTSS`, `calculateWorkoutQuality`,
`generateTrainingLoadHistory`, `predictTime` and `estimateFTP` are
embedded as plain functions because no JS execution path of theirs can
throw on such input. -/
theorem c5_totality (prof : Profile) (activities : List Activity)
    (today : ℤ) (daysBack : ℕ)
    (h : ListAll (fun a => a.name.isSome ∧ a.start_date_local.isSome)
      activities) :
    (detectIntervals prof activities).isSome ∧
    (getDailyTSS prof activities daysBack).isSome ∧
    (generateVO2maxHistory prof activities).isSome ∧
    (analyzePowerCurve activities).isSome ∧
    (predictRaceTimes prof activities today).isSome := by
  rw [ListAll_iff_forall] at h
  have hvo2 : (generateVO2maxHistory prof activities).isSome := by
    apply vo2Loop_isSome
    intro a ha
    rw [mem_sortBy] at ha
    exact (h a (List.mem_filter.mp ha).1).2
  refine ⟨?_, ?_, hvo2, ?_, ?_⟩
  · rw [detectIntervals]
    have hnames : (activities.all fun a => a.name.isSome) = true := by
      rw [List.all_eq_true]
      intro a ha
      exact (h a ha).1
    rw [if_pos hnames]
    have hdates : ((activities.filter fun a =>
        isIntervalName (a.name.getD "")).all
        fun a => a.start_date_local.isSome) = true := by
      rw [List.all_eq_true]
      intro a ha
      exact (h a (List.mem_filter.mp ha).1).2
    rw [if_pos hdates]
    rfl
  · exact dailyLoop_isSome prof activities [] fun a ha => (h a ha).2
  · rw [analyzePowerCurve]
    cases hwp : activities.filter fun a => truthy a.average_watts with
    | nil => rfl
    | cons w ws =>
      have hbc : (buildCurve (w :: ws) powerCurveDurations).isSome := by
        apply buildCurve_isSome
        intro a ha
        rw [← hwp] at ha
        exact (h a (List.mem_filter.mp ha).1).2
      cases hb : buildCurve (w :: ws) powerCurveDurations with
      | none => rw [hb] at hbc; simp at hbc
      | some curve => rfl
  · rw [predictRaceTimes]
    cases hv : generateVO2maxHistory prof activities with
    | none => rw [hv] at hvo2; simp at hvo2
    | some hist => rfl

/-- An activity carrying a name and a date but no optional numeric data. -/
def namedAct : Activity :=
  { type := some "Run", start_date_local := some 0, moving_time := 600,
    distance := none, average_heartrate := none, has_heartrate := false,
    average_watts := none, weighted_average_watts := none,
    name := some "Easy jog" }

/-- C5 (witness): the totality contract instantiated on a concrete
data-sparse but named-and-dated activity list. -/
theorem c5_totality_witness :
    (detectIntervals profA [namedAct]).isSome ∧
    (getDailyTSS profA [namedAct] 120).isSome ∧
    (generateVO2maxHistory profA [namedAct]).isSome ∧
    (analyzePowerCurve [namedAct]).isSome ∧
    (predictRaceTimes profA [namedAct] 0).isSome :=
  c5_totality profA [namedAct] 0 120 (by simp [ListAll, namedAct])

/-- The head of the stable descending sort by `key` is a member carrying
the maximal key. -/
lemma sortByKeyDesc_head (key : α → ℚ) :
    ∀ (l : List α) (b : α),
      (sortBy (fun a c => decide (key c ≤ key a)) l).head? = some b →
      b ∈ l ∧ ∀ c ∈ l, key c ≤ key b := by
  intro l
  induction l with
  | nil => intro b hb; simp [sortBy] at hb
  | cons x xs ih =>
    intro b hb
    rw [sortBy] at hb
    cases hs : sortBy (fun a c => decide (key c ≤ key a)) xs with
    | nil =>
      rw [hs] at hb
      have hb2 : b = x := by
        rw [insertBy] at hb
        exact (Option.some.injEq _ _).mp hb.symm |>.symm ▸ by
          cases hb; rfl
      subst hb2
      refine ⟨List.mem_cons_self _ _, ?_⟩
      intro c hc
      rcases List.mem_cons.mp hc with h | h
      · rw [h]
      · exfalso
        have : c ∈ sortBy (fun a c => decide (key c ≤ key a)) xs :=
          (mem_sortBy _ _ _).mpr h
        rw [hs] at this
        exact List.not_mem_nil c this
    | cons y ys =>
      rw [hs] at hb
      have hy : y ∈ xs := by
        have : y ∈ sortBy (fun a c => decide (key c ≤ key a)) xs := by
          rw [hs]; exact List.mem_cons_self _ _
        exact (mem_sortBy _ _ _).mp this
      have hydom := ih y (by rw [hs]; rfl)
      rw [insertBy] at hb
      by_cases hle : decide (key y ≤ key x) = true
      · rw [if_pos hle] at hb
        have hb2 : b = x := by cases hb; rfl
        subst hb2
        refine ⟨List.mem_cons_self _ _, ?_⟩
        intro c hc
        rcases List.mem_cons.mp hc with h | h
        · rw [h]
        · exact le_trans (hydom.2 c h) (of_decide_eq_true hle)
      · rw [if_neg hle] at hb
        have hb2 : b = y := by cases hb; rfl
        subst hb2
        refine ⟨List.mem_cons_of_mem x hy, ?_⟩
        intro c hc
        rcases List.mem_cons.mp hc with h | h
        · rw [h]
          have := of_decide_eq_false (Bool.of_not_eq_true hle)
          exact le_of_not_le this
        · exact hydom.2 c h

/-- `List.foldl max` computes an upper bound attained by the seed or a
member. -/
lemma foldl_max_spec :
    ∀ (xs : List ℚ) (x : ℚ),
      x ≤ xs.foldl max x ∧ (∀ y ∈ xs, y ≤ xs.foldl max x) ∧
      (xs.foldl max x = x ∨ xs.foldl max x ∈ xs) := by
  intro xs
  induction xs with
  | nil => intro x; exact ⟨le_refl x, by simp, Or.inl rfl⟩
  | cons y ys ih =>
    intro x
    have h := ih (max x y)
    refine ⟨le_trans (le_max_left x y) h.1, ?_, ?_⟩
    · intro z hz
      rcases List.mem_cons.mp hz with hz | hz
      · rw [hz]; exact le_trans (le_max_right x y) h.1
      · exact h.2.1 z hz
    · rcases h.2.2 with h2 | h2
      · rcases max_choice x y with h3 | h3
        · exact Or.inl (by rw [List.foldl_cons, h2, h3])
        · exact Or.inr (by
            rw [List.foldl_cons, h2, h3]; exact List.mem_cons_self y ys)
      · exact Or.inr (List.mem_cons_of_mem y h2)

/-- C6 (amended): the defensive fallback of `estimateFTP` *is* reachable.
When a qualifying power activity with moving time in [1200, 1800] exists,
FTP is 95% of the maximal `powerKey` among those (first claim branch);
but when qualifying (≥ 1200 s) power activities exist and *none* lies in
[1200, 1800] — e.g. only efforts longer than 30 minutes — FTP is 75% of
the best qualifying `average_watts` (the fallback the claim calls
unreachable). -/
theorem c6_ftp_branches (activities : List Activity) :
    ((activities.filter qualifying20).filter inRange2030 ≠ [] →
      ∃ b ∈ (activities.filter qualifying20).filter inRange2030,
        (∀ c ∈ (activities.filter qualifying20).filter inRange2030,
          powerKey c ≤ powerKey b) ∧
        estimateFTP activities = jroundQ (powerKey b * (95/100))) ∧
    (activities.filter qualifying20 ≠ [] →
      (activities.filter qualifying20).filter inRange2030 = [] →
      ∃ m, (∃ a ∈ activities.filter qualifying20,
          a.average_watts.getD 0 = m) ∧
        (∀ a ∈ activities.filter qualifying20,
          a.average_watts.getD 0 ≤ m) ∧
        estimateFTP activities = jroundQ (m * (75/100))) := by
  cases hawp : activities.filter qualifying20 with
  | nil =>
    constructor
    · intro hne
      exact absurd rfl hne
    · intro hne
      exact absurd rfl hne
  | cons a0 rest =>
    have hftp : estimateFTP activities =
        (match (sortBy (fun a b => decide (powerKey b ≤ powerKey a))
          ((a0 :: rest).filter inRange2030)).head? with
        | some best => jroundQ (powerKey best * (95/100))
        | none => jroundQ (((rest.map fun a => a.average_watts.getD 0).foldl
            max (a0.average_watts.getD 0)) * (75/100))) := by
      rw [estimateFTP, hawp]
    cases hhead : (sortBy (fun a b => decide (powerKey b ≤ powerKey a))
        ((a0 :: rest).filter inRange2030)).head? with
    | some best =>
      rw [hhead] at hftp
      have hdom := sortByKeyDesc_head powerKey
        ((a0 :: rest).filter inRange2030) best hhead
      constructor
      · intro _
        exact ⟨best, hdom.1, hdom.2, hftp⟩
      · intro _ hempty
        rw [hempty] at hhead
        simp [sortBy] at hhead
    | none =>
      rw [hhead] at hftp
      constructor
      · intro hne
        exfalso
        rcases List.exists_mem_of_ne_nil _ hne with ⟨z, hz⟩
        have : z ∈ sortBy (fun a b => decide (powerKey b ≤ powerKey a))
            ((a0 :: rest).filter inRange2030) := (mem_sortBy _ _ _).mpr hz
        cases hs : sortBy (fun a b => decide (powerKey b ≤ powerKey a))
            ((a0 :: rest).filter inRange2030) with
        | nil => rw [hs] at this; exact List.not_mem_nil z this
        | cons u us => rw [hs] at hhead; simp at hhead
      · intro _ _
        have hmax := foldl_max_spec (rest.map fun a => a.average_watts.getD 0)
          (a0.average_watts.getD 0)
        refine ⟨(rest.map fun a => a.average_watts.getD 0).foldl max
          (a0.average_watts.getD 0), ?_, ?_, hftp⟩
        · rcases hmax.2.2 with h2 | h2
          · exact ⟨a0, List.mem_cons_self _ _, h2.symm⟩
          · rcases List.mem_map.mp h2 with ⟨a, ha, haeq⟩
            exact ⟨a, List.mem_cons_of_mem a0 ha, haeq⟩
        · intro a ha
          rcases List.mem_cons.mp ha with h2 | h2
          · rw [h2]; exact hmax.1
          · exact hmax.2.1 _ (List.mem_map.mpr ⟨a, h2, rfl⟩)

/-- A 2000 s (> 30 min) power activity: it qualifies for FTP estimation
but no activity lies in the 20–30-minute window. -/
def longRideAct : Activity :=
  { type := some "Ride", start_date_local := some 0, moving_time := 2000,
    distance := none, average_heartrate := none, has_heartrate := false,
    average_watts := some 300, weighted_average_watts := none,
    name := some "Long ride" }

/-- C6 (counterexample): with a single qualifying 2000 s / 300 W activity
the best-20–30-minute branch cannot apply (the window filter is empty)
and `estimateFTP` returns the "unreachable" fallback `round(0.75 × 300) =
225`, not `round(0.95 × 300) = 285`: the ≥ 1200 s qualifying filter has
no upper bound, so the fallback is reachable. -/
theorem c6_counterexample :
    [longRideAct].filter qualifying20 = [longRideAct] ∧
    ([longRideAct].filter qualifying20).filter inRange2030 = [] ∧
    estimateFTP [longRideAct] = 225 ∧
    (225 : ℤ) ≠ jroundQ (powerKey longRideAct * (95/100)) := by
  refine ⟨by decide, by decide, ?_, ?_⟩
  · norm_num [estimateFTP, longRideAct, qualifying20, inRange2030, truthy,
      powerKey, jroundQ, sortBy, insertBy]
  · norm_num [longRideAct, powerKey, truthy, jroundQ]

/-- A 1500 s / 300 W effort inside the 20–30-minute window. -/
def tempoAct : Activity :=
  { type := some "Run", start_date_local := some 0, moving_time := 1500,
    distance := none, average_heartrate := none, has_heartrate := false,
    average_watts := some 300, weighted_average_watts := none,
    name := some "Tempo" }

/-- C6 (witness): the best-effort branch applied to a concrete in-window
activity. -/
theorem c6_ftp_branches_witness :
    ∃ b ∈ ([tempoAct].filter qualifying20).filter inRange2030,
      (∀ c ∈ ([tempoAct].filter qualifying20).filter inRange2030,
        powerKey c ≤ powerKey b) ∧
      estimateFTP [tempoAct] = jroundQ (powerKey b * (95/100)) :=
  (c6_ftp_branches [tempoAct]).1 (by decide)

/-- C7: `calculateCriticalPower` returns `null` exactly when the curve
has fewer than 3 points or lacks a point with duration in [250, 350] or
lacks one in [1000, 1400]; otherwise it returns the 2-parameter model
`CP = (P5·t5 − P20·t20)/(t5 − t20)`, `W' = (P5 − CP)·t5` (both rounded)
computed from the first point found in each anchor window. -/
theorem c7_critical_power (curve : List PowerCurvePoint) :
    (calculateCriticalPower curve = none ↔
      curve.length < 3 ∨
      (∀ c ∈ curve, ¬(c.duration ≥ 250 ∧ c.duration ≤ 350)) ∨
      (∀ c ∈ curve, ¬(c.duration ≥ 1000 ∧ c.duration ≤ 1400))) ∧
    (∀ f t, ¬curve.length < 3 →
      curve.find? (fun c =>
        decide (c.duration ≥ 250) && decide (c.duration ≤ 350)) = some f →
      curve.find? (fun c =>
        decide (c.duration ≥ 1000) && decide (c.duration ≤ 1400)) = some t →
      calculateCriticalPower curve = some
        { cp := jroundQ ((f.power * f.duration - t.power * t.duration) /
            (f.duration - t.duration))
          wPrime := jroundQ ((f.power -
            (f.power * f.duration - t.power * t.duration) /
              (f.duration - t.duration)) * f.duration) }) := by
  by_cases hlen : curve.length < 3
  · constructor
    · rw [calculateCriticalPower, if_pos hlen]
      exact ⟨fun _ => Or.inl hlen, fun _ => rfl⟩
    · intro f t h3 _ _
      exact absurd hlen h3
  · rw [calculateCriticalPower, if_neg hlen]
    cases h5 : curve.find? (fun c =>
        decide (c.duration ≥ 250) && decide (c.duration ≤ 350)) with
    | none =>
      constructor
      · constructor
        · intro _
          refine Or.inr (Or.inl ?_)
          intro c hc
          have := List.find?_eq_none.mp h5 c hc
          simpa using this
        · intro _
          cases h20 : curve.find? (fun c =>
              decide (c.duration ≥ 1000) && decide (c.duration ≤ 1400)) with
          | none => rfl
          | some t => rfl
      · intro f t _ hf _
        exact Option.noConfusion hf
    | some f =>
      cases h20 : curve.find? (fun c =>
          decide (c.duration ≥ 1000) && decide (c.duration ≤ 1400)) with
      | none =>
        constructor
        · constructor
          · intro _
            refine Or.inr (Or.inr ?_)
            intro c hc
            have := List.find?_eq_none.mp h20 c hc
            simpa using this
          · intro _; rfl
        · intro f2 t2 _ _ ht
          exact Option.noConfusion ht
      | some t =>
        constructor
        · constructor
          · intro hnone
            exact Option.noConfusion hnone
          · intro hdisj
            exfalso
            rcases hdisj with h | h | h
            · exact hlen h
            · have hmem := List.mem_of_find?_eq_some h5
              have hprop := List.find?_some h5
              simp only [Bool.and_eq_true, decide_eq_true_eq] at hprop
              exact h f hmem hprop
            · have hmem := List.mem_of_find?_eq_some h20
              have hprop := List.find?_some h20
              simp only [Bool.and_eq_true, decide_eq_true_eq] at hprop
              exact h t hmem hprop
        · intro f2 t2 _ hf ht
          cases hf
          cases ht
          rfl

/-- A concrete power-duration curve with both anchor windows occupied. -/
def sampleCurve : List PowerCurvePoint :=
  [{ duration := 60, power := 500, date := 0, activityName := none },
   { duration := 300, power := 400, date := 0, activityName := none },
   { duration := 1200, power := 310, date := 0, activityName := none }]

/-- C7 (witness): the 2-parameter model on a 3-point curve with a 300 s /
400 W and a 1200 s / 310 W anchor. -/
theorem c7_critical_power_witness :
    calculateCriticalPower sampleCurve = some
      { cp := jroundQ (((400 : ℚ) * 300 - 310 * 1200) / (300 - 1200))
        wPrime := jroundQ (((400 : ℚ) -
          ((400 : ℚ) * 300 - 310 * 1200) / (300 - 1200)) * 300) } :=
  (c7_critical_power sampleCurve).2
    { duration := 300, power := 400, date := 0, activityName := none }
    { duration := 1200, power := 310, date := 0, activityName := none }
    (by decide) (by decide) (by decide)

/-- Modelled from the spec's wording of race-time prediction, for
refinement comparison: `velocity = vo2max × 0.2 × D / (0.000104·D +
0.182258)`, `timeMinutes = (D × 1000) / velocity`, rendered `H:MM:SS`
when the time is at least one hour (60 minutes) and `M:SS` otherwise,
with the `MM` and `SS` fields zero-padded to two digits; hours, minutes
and seconds are the floor decomposition of `timeMinutes`. -/
noncomputable def predictTimeSpec (distanceKm vo2max : ℝ) : String :=
  let velocity : ℝ := vo2max * (2/10) * distanceKm /
    ((104/1000000) * distanceKm + 182258/1000000)
  let timeMinutes : ℝ := distanceKm * 1000 / velocity
  if 60 ≤ timeMinutes then
    toString ⌊timeMinutes / 60⌋ ++ ":" ++
      padTwo (⌊timeMinutes⌋ - 60 * ⌊timeMinutes / 60⌋) ++ ":" ++
      padTwo (⌊timeMinutes * 60⌋ - 60 * ⌊timeMinutes⌋)
  else
    toString (⌊timeMinutes⌋ - 60 * ⌊timeMinutes / 60⌋) ++ ":" ++
      padTwo (⌊timeMinutes * 60⌋ - 60 * ⌊timeMinutes⌋)

/-- C8: for every positive VO2max and positive target distance (the
marathon included), `predictTime` returns exactly the spec-worded
formatted duration: the JS `%`-based hour/minute/second extraction and
the `hours > 0` test coincide with the floor decomposition of
`timeMinutes` and the `timeMinutes ≥ 60` test. -/
theorem c8_predict_time (distanceKm vo2max : ℝ) (hD : 0 < distanceKm)
    (hv : 0 < vo2max) :
    predictTime distanceKm vo2max = predictTimeSpec distanceKm vo2max := by
  rw [predictTime, predictTimeSpec]
  set tm := distanceKm * 1000 / (vo2max * (2/10) * distanceKm /
    ((104/1000000) * distanceKm + 182258/1000000)) with htm
  have hmin : ⌊tm - 60 * ((⌊tm / 60⌋ : ℤ) : ℝ)⌋ = ⌊tm⌋ - 60 * ⌊tm / 60⌋ := by
    rw [show tm - 60 * ((⌊tm / 60⌋ : ℤ) : ℝ) =
      tm - ((60 * ⌊tm / 60⌋ : ℤ) : ℝ) by push_cast; ring]
    rw [Int.floor_sub_int]
  have hsec : ⌊(tm - ((⌊tm⌋ : ℤ) : ℝ)) * 60⌋ = ⌊tm * 60⌋ - 60 * ⌊tm⌋ := by
    rw [show (tm - ((⌊tm⌋ : ℤ) : ℝ)) * 60 =
      tm * 60 - ((60 * ⌊tm⌋ : ℤ) : ℝ) by push_cast; ring]
    rw [Int.floor_sub_int]
  have hcond : 0 < ⌊tm / 60⌋ ↔ 60 ≤ tm := by
    rw [Int.lt_iff_add_one_le, zero_add, Int.le_floor]
    rw [show ((1 : ℤ) : ℝ) = 1 by norm_num]
    rw [le_div_iff (by norm_num : (0 : ℝ) < 60)]
    constructor <;> intro h <;> linarith
  by_cases h : 60 ≤ tm
  · rw [if_pos (by exact_mod_cast hcond.mpr h), if_pos h, hmin, hsec]
  · rw [if_neg (by rw [gt_iff_lt, hcond]; exact h), if_neg h, hmin, hsec]

/-- C8 (witness): the theorem instantiated at the marathon distance and a
fixed VO2max of 50. -/
theorem c8_predict_time_witness :
    (0 : ℝ) < 42195/1000 ∧ (0 : ℝ) < 50 ∧
    predictTime (42195/1000) 50 = predictTimeSpec (42195/1000) 50 :=
  ⟨by norm_num, by norm_num,
    c8_predict_time (42195/1000) 50 (by norm_num) (by norm_num)⟩

/-- Modelled from the claim's wording, for comparison with `getDailyTSS`:
the sum of `calculateTSS` over all activities on a given local calendar
date. -/
noncomputable def dailySumOn (prof : Profile) (l : List Activity)
    (day : ℤ) : ℤ :=
  ((l.filter fun a => a.start_date_local == some day).map
    (calculateTSS prof)).sum

/-- Looking a day up after an `addDaily` step: the updated entry on the
added day, the old table elsewhere. -/
lemma lookup_addDaily (d : ℤ) (t : ℤ) (day : ℤ) :
    ∀ m : List (ℤ × ℤ),
      List.lookup day (addDaily d t m) =
        if day = d then
          (match List.lookup day m with
           | some x => some (x + t)
           | none => some t)
        else List.lookup day m := by
  intro m
  induction m with
  | nil =>
    by_cases h : day = d
    · have hb : (day == d) = true := beq_iff_eq.mpr h
      simp [addDaily, List.lookup, hb, h]
    · have hb : (day == d) = false := beq_eq_false_iff_ne.mpr h
      simp [addDaily, List.lookup, hb, h]
  | cons kv rest ih =>
    obtain ⟨k, v⟩ := kv
    rw [addDaily]
    by_cases hk : k = d
    · subst hk
      rw [if_pos rfl]
      by_cases h : day = k
      · have hb : (day == k) = true := beq_iff_eq.mpr h
        simp [List.lookup, hb, h]
      · have hb : (day == k) = false := beq_eq_false_iff_ne.mpr h
        simp [List.lookup, hb, h]
    · rw [if_neg hk]
      by_cases h : day = k
      · have hb : (day == k) = true := beq_iff_eq.mpr h
        have hnd : ¬day = d := by rw [h]; exact hk
        simp [List.lookup, hb, hnd]
      · have hb : (day == k) = false := beq_eq_false_iff_ne.mpr h
        simp [List.lookup, hb, ih]

/-- The daily-TSS loop computes, for every day, the prior table entry
plus the per-day TSS sum of the remaining activities. -/
lemma dailyLoop_lookup (prof : Profile) :
    ∀ (l : List Activity) (m M : List (ℤ × ℤ)),
      dailyLoop prof l m = some M → ∀ day : ℤ,
        List.lookup day M =
          match List.lookup day m with
          | some t => some (t + dailySumOn prof l day)
          | none =>
            if l.any (fun a => a.start_date_local == some day)
            then some (dailySumOn prof l day) else none := by
  intro l
  induction l with
  | nil =>
    intro m M hM day
    have hMm : m = M := Option.some.inj hM
    subst hMm
    have hsum : dailySumOn prof [] day = 0 := rfl
    rw [hsum]
    cases List.lookup day m with
    | none => rfl
    | some t => show some t = some (t + 0); rw [Int.add_zero]
  | cons a rest ih =>
    intro m M hM day
    rw [dailyLoop] at hM
    cases hd : a.start_date_local with
    | none => rw [hd] at hM; exact Option.noConfusion hM
    | some d =>
      rw [hd] at hM
      have hstep := ih _ M hM day
      rw [hstep, lookup_addDaily]
      by_cases hday : day = d
      · rw [if_pos hday]
        have had : (a.start_date_local == some day) = true := by
          rw [hd, hday]; exact beq_self_eq_true _
        have hsumc : dailySumOn prof (a :: rest) day =
            calculateTSS prof a + dailySumOn prof rest day := by
          rw [dailySumOn, dailySumOn, List.filter_cons, if_pos had,
            List.map_cons, List.sum_cons]
        have hanyc : ((a :: rest).any
            fun x => x.start_date_local == some day) = true := by
          rw [List.any_cons, had, Bool.true_or]
        rw [hsumc, if_pos hanyc]
        cases List.lookup day m with
        | some x =>
          show some (x + calculateTSS prof a + dailySumOn prof rest day) =
            some (x + (calculateTSS prof a + dailySumOn prof rest day))
          rw [Int.add_assoc]
        | none => rfl
      · rw [if_neg hday]
        have had : (a.start_date_local == some day) = false := by
          rw [hd]
          exact beq_eq_false_iff_ne.mpr
            (fun hc => hday (Option.some.inj hc).symm)
        have hsumc : dailySumOn prof (a :: rest) day =
            dailySumOn prof rest day := by
          rw [dailySumOn, dailySumOn, List.filter_cons,
            if_neg (by intro hc; rw [had] at hc; exact Bool.false_ne_true hc)]
        have hanyc : ((a :: rest).any
            fun x => x.start_date_local == some day) =
            (rest.any fun x => x.start_date_local == some day) := by
          rw [List.any_cons, had, Bool.false_or]
        rw [hsumc, hanyc]

/-- C9: `getDailyTSS` ignores its `daysBack` parameter entirely, and the
returned table maps each local calendar date with at least one activity
to the sum of `calculateTSS` over exactly the activities of that date,
over the whole activity set (no windowing); dates without activities have
no entry. -/
theorem c9_daily_tss (prof : Profile) (activities : List Activity)
    (d1 d2 : ℕ) :
    getDailyTSS prof activities d1 = getDailyTSS prof activities d2 ∧
    (∀ M, getDailyTSS prof activities d1 = some M →
      ∀ day : ℤ,
        List.lookup day M =
          if activities.any (fun a => a.start_date_local == some day)
          then some (dailySumOn prof activities day) else none) := by
  refine ⟨rfl, ?_⟩
  intro M hM day
  have h := dailyLoop_lookup prof activities [] M hM day
  rw [h]
  rfl

/-- A second jog on day 0 and a jog on day 1, to exercise grouping. -/
def namedActB : Activity := { namedAct with name := some "Evening jog" }

/-- A jog on day 1. -/
def namedActC : Activity := { namedAct with start_date_local := some 1 }

/-- C9 (witness): the characterization applied to a concrete three-run
table (two runs on day 0, one on day 1; all TSS 0 for lack of data). -/
theorem c9_daily_tss_witness :
    List.lookup 0 [((0 : ℤ), (0 : ℤ)), (1, 0)] =
      (if [namedAct, namedActB, namedActC].any
          (fun a => a.start_date_local == some 0)
       then some (dailySumOn profA [namedAct, namedActB, namedActC] 0)
       else none) := by
  have hM : getDailyTSS profA [namedAct, namedActB, namedActC] 90 =
      some [((0 : ℤ), (0 : ℤ)), (1, 0)] := by
    have hT : calculateTSS profA namedAct = 0 := by
      simp [calculateTSS, namedAct, truthy]
    have hTB : calculateTSS profA namedActB = 0 := by
      simp [calculateTSS, namedAct, namedActB, truthy]
    have hTC : calculateTSS profA namedActC = 0 := by
      simp [calculateTSS, namedAct, namedActC, truthy]
    have h0 : getDailyTSS profA [namedAct, namedActB, namedActC] 90 =
        some (addDaily 1 (calculateTSS profA namedActC)
          (addDaily 0 (calculateTSS profA namedActB)
            (addDaily 0 (calculateTSS profA namedAct) []))) := rfl
    rw [h0, hT, hTB, hTC]
    rfl
  exact (c9_daily_tss profA [namedAct, namedActB, namedActC] 90 120).2
    [((0 : ℤ), (0 : ℤ)), (1, 0)] hM 0

/-- Erase the `type` field of an activity.  Two activity lists "differ
only in their `type` fields" exactly when their `eraseTy` images agree. -/
def eraseTy (a : Activity) : Activity := { a with type := none }

/-- `insertBy` commutes with `map` when the comparator is pulled back. -/
lemma insertBy_map (f : α → β) (le : β → β → Bool) (x : α) :
    ∀ l : List α, insertBy le (f x) (l.map f) =
      (insertBy (fun a b => le (f a) (f b)) x l).map f := by
  intro l
  induction l with
  | nil => rfl
  | cons y ys ih =>
    rw [List.map_cons, insertBy, insertBy]
    by_cases h : le (f x) (f y)
    · rw [if_pos h, if_pos h]
      rfl
    · rw [if_neg h, if_neg h, List.map_cons, ih]

/-- `sortBy` commutes with `map` when the comparator is pulled back. -/
lemma sortBy_map (f : α → β) (le : β → β → Bool) :
    ∀ l : List α, sortBy le (l.map f) =
      (sortBy (fun a b => le (f a) (f b)) l).map f := by
  intro l
  induction l with
  | nil => rfl
  | cons x xs ih => rw [List.map_cons, sortBy, sortBy, ih, insertBy_map]

/-- `estimateFTP` never reads `type`. -/
lemma estimateFTP_eraseTy (acts : List Activity) :
    estimateFTP (acts.map eraseTy) = estimateFTP acts := by
  rw [estimateFTP, estimateFTP]
  have hfil : (acts.map eraseTy).filter qualifying20 =
      (acts.filter qualifying20).map eraseTy := by
    rw [List.filter_map]
    rfl
  rw [hfil]
  cases acts.filter qualifying20 with
  | nil => rfl
  | cons a0 rest =>
    have hsort : sortBy (fun a b => decide (powerKey b ≤ powerKey a))
        (((a0 :: rest).map eraseTy).filter inRange2030) =
        (sortBy (fun a b => decide (powerKey b ≤ powerKey a))
          ((a0 :: rest).filter inRange2030)).map eraseTy := by
      have h1 : ((a0 :: rest).map eraseTy).filter inRange2030 =
          ((a0 :: rest).filter inRange2030).map eraseTy := by
        rw [List.filter_map]
        rfl
      rw [h1, sortBy_map]
      rfl
    show (match (sortBy (fun a b => decide (powerKey b ≤ powerKey a))
        (((a0 :: rest).map eraseTy).filter inRange2030)).head? with
      | some best => jroundQ (powerKey best * (95/100))
      | none => jroundQ ((((rest.map eraseTy).map
          fun (a : Activity) => a.average_watts.getD 0).foldl max
          ((eraseTy a0).average_watts.getD 0)) * (75/100))) =
      (match (sortBy (fun a b => decide (powerKey b ≤ powerKey a))
        ((a0 :: rest).filter inRange2030)).head? with
      | some best => jroundQ (powerKey best * (95/100))
      | none => jroundQ (((rest.map
          fun (a : Activity) => a.average_watts.getD 0).foldl max
          (a0.average_watts.getD 0)) * (75/100)))
    rw [hsort, List.head?_map]
    cases (sortBy (fun a b => decide (powerKey b ≤ powerKey a))
        ((a0 :: rest).filter inRange2030)).head? with
    | some best => rfl
    | none =>
      show jroundQ ((((rest.map eraseTy).map
          fun (a : Activity) => a.average_watts.getD 0).foldl max
          ((eraseTy a0).average_watts.getD 0)) * (75/100)) = _
      rw [List.map_map]
      rfl

/-- The constructor never reads `type`. -/
lemma mkProfile_eraseTy (creationYear currentYear : ℤ)
    (acts : List Activity) :
    mkProfile creationYear currentYear (acts.map eraseTy) =
      mkProfile creationYear currentYear acts := by
  rw [mkProfile, mkProfile, estimateFTP_eraseTy]

/-- `calculateTSS` never reads `type`. -/
lemma calculateTSS_eraseTy (prof : Profile) (a : Activity) :
    calculateTSS prof (eraseTy a) = calculateTSS prof a := rfl

/-- `calculateWorkoutQuality` never reads `type`. -/
lemma calculateWorkoutQuality_eraseTy (prof : Profile) (a : Activity)
    (tss : ℤ) :
    calculateWorkoutQuality prof (eraseTy a) tss =
      calculateWorkoutQuality prof a tss := rfl

/-- The per-day TSS sum never reads `type`. -/
lemma tssOnDay_eraseTy (prof : Profile) (acts : List Activity) (d : ℤ) :
    tssOnDay prof (acts.map eraseTy) d = tssOnDay prof acts d := by
  rw [tssOnDay, tssOnDay, List.filter_map, List.foldl_map]
  rfl

/-- The day loop of the training-load history never reads `type`. -/
lemma trainingLoadAux_eraseTy (prof : Profile) (acts : List Activity) :
    ∀ (n : ℕ) (d : ℤ) (c a : ℝ),
      trainingLoadAux prof (acts.map eraseTy) n d c a =
        trainingLoadAux prof acts n d c a := by
  intro n
  induction n with
  | zero => intro d c a; rfl
  | succ n ih =>
    intro d c a
    rw [trainingLoadAux, trainingLoadAux]
    rw [calculateCTL, calculateCTL, calculateATL, calculateATL,
      tssOnDay_eraseTy, ih]

/-- `generateTrainingLoadHistory` never reads `type`. -/
lemma generateTrainingLoadHistory_eraseTy (prof : Profile)
    (acts : List Activity) (today : ℤ) (daysBack : ℕ) :
    generateTrainingLoadHistory prof (acts.map eraseTy) today daysBack =
      generateTrainingLoadHistory prof acts today daysBack := by
  rw [generateTrainingLoadHistory, generateTrainingLoadHistory]
  have hsort : sortBy (fun a b =>
      decide (a.start_date_local.getD 0 ≤ b.start_date_local.getD 0))
      (acts.map eraseTy) =
      (sortBy (fun a b =>
        decide (a.start_date_local.getD 0 ≤ b.start_date_local.getD 0))
        acts).map eraseTy := by
    rw [sortBy_map]
    rfl
  rw [hsort, trainingLoadAux_eraseTy]

/-- The VO2max push loop never reads `type`. -/
lemma vo2Loop_eraseTy (prof : Profile) :
    ∀ l : List Activity, vo2Loop prof (l.map eraseTy) = vo2Loop prof l := by
  intro l
  induction l with
  | nil => rfl
  | cons a rest ih =>
    show (match estimateVO2max prof a with
      | none => vo2Loop prof (rest.map eraseTy)
      | some v =>
        if v ≠ 0 ∧ 30 < v ∧ v < 90 then
          match a.start_date_local with
          | none => none
          | some d =>
            (vo2Loop prof (rest.map eraseTy)).map fun history =>
              { date := d, vo2max := v, distance := a.distance,
                activityName := a.name } :: history
        else vo2Loop prof (rest.map eraseTy)) = vo2Loop prof (a :: rest)
    rw [vo2Loop]
    cases hv : estimateVO2max prof a with
    | none => exact ih
    | some v =>
      show (if v ≠ 0 ∧ 30 < v ∧ v < 90 then
          match a.start_date_local with
          | none => none
          | some d =>
            (vo2Loop prof (rest.map eraseTy)).map fun history =>
              { date := d, vo2max := v, distance := a.distance,
                activityName := a.name } :: history
        else vo2Loop prof (rest.map eraseTy)) =
        (if v ≠ 0 ∧ 30 < v ∧ v < 90 then
          match a.start_date_local with
          | none => none
          | some d =>
            (vo2Loop prof rest).map fun history =>
              { date := d, vo2max := v, distance := a.distance,
                activityName := a.name } :: history
        else vo2Loop prof rest)
      by_cases hc : v ≠ 0 ∧ 30 < v ∧ v < 90
      · rw [if_pos hc, if_pos hc]
        cases hd : a.start_date_local with
        | none => rfl
        | some d => rw [ih]
      · rw [if_neg hc, if_neg hc]
        exact ih

/-- `generateVO2maxHistory` never reads `type`. -/
lemma generateVO2maxHistory_eraseTy (prof : Profile)
    (acts : List Activity) :
    generateVO2maxHistory prof (acts.map eraseTy) =
      generateVO2maxHistory prof acts := by
  rw [generateVO2maxHistory, generateVO2maxHistory]
  have hfil : (acts.map eraseTy).filter (qualityRun prof) =
      (acts.filter (qualityRun prof)).map eraseTy := by
    rw [List.filter_map]
    rfl
  have hsort : sortBy (fun a b =>
      decide (a.start_date_local.getD 0 ≤ b.start_date_local.getD 0))
      ((acts.filter (qualityRun prof)).map eraseTy) =
      (sortBy (fun a b =>
        decide (a.start_date_local.getD 0 ≤ b.start_date_local.getD 0))
        (acts.filter (qualityRun prof))).map eraseTy := by
    rw [sortBy_map]
    rfl
  rw [hfil, hsort, vo2Loop_eraseTy]

/-- `predictRaceTimes` never reads `type`. -/
lemma predictRaceTimes_eraseTy (prof : Profile) (acts : List Activity)
    (today : ℤ) :
    predictRaceTimes prof (acts.map eraseTy) today =
      predictRaceTimes prof acts today := by
  rw [predictRaceTimes, predictRaceTimes, generateVO2maxHistory_eraseTy]

/-- The power-curve `reduce` winner never reads `type`. -/
lemma bestEffortOf_eraseTy :
    ∀ (cs : List Activity) (c : Activity),
      bestEffortOf (eraseTy c) (cs.map eraseTy) =
        eraseTy (bestEffortOf c cs) := by
  intro cs
  induction cs with
  | nil => intro c; rfl
  | cons x xs ih =>
    intro c
    show bestEffortOf (if powerKey x > powerKey c then eraseTy x
      else eraseTy c) (xs.map eraseTy) =
      eraseTy (bestEffortOf (if powerKey x > powerKey c then x else c) xs)
    by_cases h : powerKey x > powerKey c
    · rw [if_pos h, if_pos h, ih]
    · rw [if_neg h, if_neg h, ih]

/-- The power-curve bucket loop never reads `type`. -/
lemma buildCurve_eraseTy (wp : List Activity) :
    ∀ durs : List ℚ,
      buildCurve (wp.map eraseTy) durs = buildCurve wp durs := by
  intro durs
  induction durs with
  | nil => rfl
  | cons duration rest ih =>
    rw [buildCurve, buildCurve]
    have hcand : (wp.map eraseTy).filter (fun a =>
        decide (|a.moving_time - duration| < duration * (2/10))) =
        (wp.filter (fun a =>
          decide (|a.moving_time - duration| < duration * (2/10)))).map
          eraseTy := by
      rw [List.filter_map]
      rfl
    rw [hcand]
    cases hfc : wp.filter (fun a =>
        decide (|a.moving_time - duration| < duration * (2/10))) with
    | nil => exact ih
    | cons c cs =>
      have hbe := bestEffortOf_eraseTy cs c
      show ((match (bestEffortOf (eraseTy c)
            (cs.map eraseTy)).start_date_local with
        | none => none
        | some d =>
          (buildCurve (wp.map eraseTy) rest).map
            fun (curve : List PowerCurvePoint) =>
            { duration := duration,
              power := powerKey (bestEffortOf (eraseTy c) (cs.map eraseTy)),
              date := d,
              activityName :=
                (bestEffortOf (eraseTy c) (cs.map eraseTy)).name } :: curve) :
          Option (List PowerCurvePoint)) =
        ((match (bestEffortOf c cs).start_date_local with
        | none => none
        | some d =>
          (buildCurve wp rest).map fun (curve : List PowerCurvePoint) =>
            { duration := duration, power := powerKey (bestEffortOf c cs),
              date := d,
              activityName := (bestEffortOf c cs).name } :: curve) :
          Option (List PowerCurvePoint))
      rw [hbe]
      show ((match (bestEffortOf c cs).start_date_local with
        | none => none
        | some d =>
          (buildCurve (wp.map eraseTy) rest).map
            fun (curve : List PowerCurvePoint) =>
            { duration := duration, power := powerKey (bestEffortOf c cs),
              date := d,
              activityName := (bestEffortOf c cs).name } :: curve) :
          Option (List PowerCurvePoint)) = _
      cases hd : (bestEffortOf c cs).start_date_local with
      | none => rfl
      | some d => rw [ih]

/-- `analyzePowerCurve` never reads `type`. -/
lemma analyzePowerCurve_eraseTy (acts : List Activity) :
    analyzePowerCurve (acts.map eraseTy) = analyzePowerCurve acts := by
  rw [analyzePowerCurve, analyzePowerCurve]
  have hfil : (acts.map eraseTy).filter (fun a => truthy a.average_watts) =
      (acts.filter (fun a => truthy a.average_watts)).map eraseTy := by
    rw [List.filter_map]
    rfl
  rw [hfil]
  cases hwp : acts.filter (fun a => truthy a.average_watts) with
  | nil => rfl
  | cons w ws =>
    show (buildCurve ((w :: ws).map eraseTy) powerCurveDurations).map
        (fun curve =>
          some ({ curve := curve,
                  criticalPower := calculateCriticalPower curve } :
            PowerAnalysis)) =
      (buildCurve (w :: ws) powerCurveDurations).map
        (fun curve =>
          some ({ curve := curve,
                  criticalPower := calculateCriticalPower curve } :
            PowerAnalysis))
    rw [buildCurve_eraseTy]

/-- The per-workout interval summary never reads `type`. -/
lemma mkIntervalSummary_eraseTy (prof : Profile) (a : Activity) :
    mkIntervalSummary prof (eraseTy a) = mkIntervalSummary prof a := rfl

/-- `detectIntervals` never reads `type`. -/
lemma detectIntervals_eraseTy (prof : Profile) (acts : List Activity) :
    detectIntervals prof (acts.map eraseTy) = detectIntervals prof acts := by
  rw [detectIntervals, detectIntervals]
  have hnames : ((acts.map eraseTy).all fun a => a.name.isSome) =
      (acts.all fun a => a.name.isSome) := by
    rw [List.all_map]
    rfl
  rw [hnames]
  by_cases hn : (acts.all fun a => a.name.isSome) = true
  · rw [if_pos hn, if_pos hn]
    have hfil : (acts.map eraseTy).filter (fun a =>
        isIntervalName (a.name.getD "")) =
        (acts.filter (fun a => isIntervalName (a.name.getD ""))).map
          eraseTy := by
      rw [List.filter_map]
      rfl
    have hdates : (((acts.filter (fun a =>
        isIntervalName (a.name.getD ""))).map eraseTy).all
        fun a => a.start_date_local.isSome) =
        ((acts.filter (fun a => isIntervalName (a.name.getD ""))).all
          fun a => a.start_date_local.isSome) := by
      rw [List.all_map]
      rfl
    show (if (((acts.map eraseTy).filter fun a =>
          isIntervalName (a.name.getD "")).all
          fun a => a.start_date_local.isSome) = true then
        some (sortBy (fun s1 s2 => decide (s2.date ≤ s1.date))
          (((acts.map eraseTy).filter fun a =>
            isIntervalName (a.name.getD "")).map (mkIntervalSummary prof)))
      else none) =
      (if ((acts.filter fun a =>
          isIntervalName (a.name.getD "")).all
          fun a => a.start_date_local.isSome) = true then
        some (sortBy (fun s1 s2 => decide (s2.date ≤ s1.date))
          ((acts.filter fun a =>
            isIntervalName (a.name.getD "")).map (mkIntervalSummary prof)))
      else none)
    rw [hfil, hdates]
    by_cases hd : ((acts.filter (fun a =>
        isIntervalName (a.name.getD ""))).all
        fun a => a.start_date_local.isSome) = true
    · rw [if_pos hd, if_pos hd, List.map_map]
      rfl
    · rw [if_neg hd, if_neg hd]
  · rw [if_neg hn, if_neg hn]

/-- The daily-TSS loop never reads `type`. -/
lemma dailyLoop_eraseTy (prof : Profile) :
    ∀ (l : List Activity) (m : List (ℤ × ℤ)),
      dailyLoop prof (l.map eraseTy) m = dailyLoop prof l m := by
  intro l
  induction l with
  | nil => intro m; rfl
  | cons a rest ih =>
    intro m
    show (match a.start_date_local with
      | none => none
      | some d =>
        dailyLoop prof (rest.map eraseTy)
          (addDaily d (calculateTSS prof a) m)) = dailyLoop prof (a :: rest) m
    rw [dailyLoop]
    cases hd : a.start_date_local with
    | none => rfl
    | some d =>
      show dailyLoop prof (rest.map eraseTy)
          (addDaily d (calculateTSS prof a) m) =
        dailyLoop prof rest (addDaily d (calculateTSS prof a) m)
      exact ih _

/-- `getDailyTSS` never reads `type`. -/
lemma getDailyTSS_eraseTy (prof : Profile) (acts : List Activity)
    (daysBack : ℕ) :
    getDailyTSS prof (acts.map eraseTy) daysBack =
      getDailyTSS prof acts daysBack := by
  rw [getDailyTSS, getDailyTSS, dailyLoop_eraseTy]

/-- C10: no operation of the metrics calculator reads the `type` field.
For any two activity lists that agree after erasing `type` (i.e. differ
only in their `type` fields), FTP estimation, the derived profile,
per-activity TSS and quality scores, the training-load history, the
VO2max history, the race predictions, the power curve, interval
detection and the daily-TSS table are all identical — activities of any
sport contribute alike. -/
theorem c10_type_blind (creationYear currentYear today : ℤ)
    (daysBack dTSS : ℕ) (acts1 acts2 : List Activity)
    (h : acts1.map eraseTy = acts2.map eraseTy) :
    estimateFTP acts1 = estimateFTP acts2 ∧
    mkProfile creationYear currentYear acts1 =
      mkProfile creationYear currentYear acts2 ∧
    (∀ (prof : Profile) (a b : Activity), eraseTy a = eraseTy b →
      calculateTSS prof a = calculateTSS prof b ∧
      ∀ tss : ℤ, calculateWorkoutQuality prof a tss =
        calculateWorkoutQuality prof b tss) ∧
    (∀ prof : Profile, generateTrainingLoadHistory prof acts1 today daysBack =
      generateTrainingLoadHistory prof acts2 today daysBack) ∧
    (∀ prof : Profile, generateVO2maxHistory prof acts1 =
      generateVO2maxHistory prof acts2) ∧
    (∀ prof : Profile, predictRaceTimes prof acts1 today =
      predictRaceTimes prof acts2 today) ∧
    analyzePowerCurve acts1 = analyzePowerCurve acts2 ∧
    (∀ prof : Profile, detectIntervals prof acts1 =
      detectIntervals prof acts2) ∧
    (∀ prof : Profile, getDailyTSS prof acts1 dTSS =
      getDailyTSS prof acts2 dTSS) := by
  refine ⟨?_, ?_, ?_, ?_, ?_, ?_, ?_, ?_, ?_⟩
  · rw [← estimateFTP_eraseTy acts1, h, estimateFTP_eraseTy]
  · rw [← mkProfile_eraseTy creationYear currentYear acts1, h,
      mkProfile_eraseTy]
  · intro prof a b hab
    constructor
    · rw [← calculateTSS_eraseTy prof a, hab, calculateTSS_eraseTy]
    · intro tss
      rw [← calculateWorkoutQuality_eraseTy prof a tss, hab,
        calculateWorkoutQuality_eraseTy]
  · intro prof
    rw [← generateTrainingLoadHistory_eraseTy prof acts1 today daysBack, h,
      generateTrainingLoadHistory_eraseTy]
  · intro prof
    rw [← generateVO2maxHistory_eraseTy prof acts1, h,
      generateVO2maxHistory_eraseTy]
  · intro prof
    rw [← predictRaceTimes_eraseTy prof acts1 today, h,
      predictRaceTimes_eraseTy]
  · rw [← analyzePowerCurve_eraseTy acts1, h, analyzePowerCurve_eraseTy]
  · intro prof
    rw [← detectIntervals_eraseTy prof acts1, h, detectIntervals_eraseTy]
  · intro prof
    rw [← getDailyTSS_eraseTy prof acts1 dTSS, h, getDailyTSS_eraseTy]

/-- C10 (witness): a "Run" list and the same list relabelled "Ride"
produce identical outputs from every operation. -/
theorem c10_type_blind_witness :
    estimateFTP [{ tempoAct with type := some "Run" }] =
      estimateFTP [{ tempoAct with type := some "Ride" }] ∧
    mkProfile 2015 2025 [{ tempoAct with type := some "Run" }] =
      mkProfile 2015 2025 [{ tempoAct with type := some "Ride" }] ∧
    (∀ (prof : Profile) (a b : Activity), eraseTy a = eraseTy b →
      calculateTSS prof a = calculateTSS prof b ∧
      ∀ tss : ℤ, calculateWorkoutQuality prof a tss =
        calculateWorkoutQuality prof b tss) ∧
    (∀ prof : Profile,
      generateTrainingLoadHistory prof
        [{ tempoAct with type := some "Run" }] 0 90 =
      generateTrainingLoadHistory prof
        [{ tempoAct with type := some "Ride" }] 0 90) ∧
    (∀ prof : Profile,
      generateVO2maxHistory prof [{ tempoAct with type := some "Run" }] =
      generateVO2maxHistory prof [{ tempoAct with type := some "Ride" }]) ∧
    (∀ prof : Profile,
      predictRaceTimes prof [{ tempoAct with type := some "Run" }] 0 =
      predictRaceTimes prof [{ tempoAct with type := some "Ride" }] 0) ∧
    analyzePowerCurve [{ tempoAct with type := some "Run" }] =
      analyzePowerCurve [{ tempoAct with type := some "Ride" }] ∧
    (∀ prof : Profile,
      detectIntervals prof [{ tempoAct with type := some "Run" }] =
      detectIntervals prof [{ tempoAct with type := some "Ride" }]) ∧
    (∀ prof : Profile,
      getDailyTSS prof [{ tempoAct with type := some "Run" }] 120 =
      getDailyTSS prof [{ tempoAct with type := some "Ride" }] 120) :=
  c10_type_blind 2015 2025 0 90 120
    [{ tempoAct with type := some "Run" }]
    [{ tempoAct with type := some "Ride" }] rfl
